import Mathlib

/-!
Shallow embedding of `src/smart_irrigation_system/app.py` (Flask handlers for
a smart-irrigation dashboard) and verification of the store/API contract.

JSON values are modelled by `JsonVal` (numbers as `Int`).  Python truthiness
(`if not payload`, `bool(x)`) is `truthy`.  Python `k in payload` and
`payload[k]` are `pyContains` / `pySubscript`; a `TypeError` raised by them is
an `Except.error` (an uncaught exception in the handler, never a 400).
The module-level state (`system_status`, `_sensor_data`, `_system_status`,
`_history`) is the `Store` structure.  The wall clock
(`datetime.utcnow().isoformat() + "Z"`) is passed to `ingest` as the `now`
string.  `request.get_json(force=True, silent=True)` is modelled as an
`Option JsonVal` argument (`none` = body missing or unparseable; JSON `null`
parses to `JsonVal.null`, which is falsy like Python's `None`).
-/

namespace IrrigationApp

/-- JSON values as delivered by `request.get_json`. -/
inductive JsonVal where
  | null : JsonVal
  | bool : Bool → JsonVal
  | num : Int → JsonVal
  | str : String → JsonVal
  | arr : List JsonVal → JsonVal
  | obj : List (String × JsonVal) → JsonVal

/-- Python truthiness of a JSON value (`bool(x)` / `if not x`). -/
def truthy : JsonVal → Bool
  | .null => false
  | .bool b => b
  | .num n => n != 0
  | .str s => s != ""
  | .arr xs => !xs.isEmpty
  | .obj kvs => !kvs.isEmpty

/-- Does `hay` start with `needle`? (helper for Python substring `in`). -/
def listStartsWith : List Char → List Char → Bool
  | _, [] => true
  | [], _ :: _ => false
  | h :: t, n :: m => h = n && listStartsWith t m

/-- Does `hay` contain `needle` as a contiguous sublist?
(Python `needle in hay` for strings). -/
def listHasSub (hay needle : List Char) : Bool :=
  listStartsWith hay needle ||
    match hay with
    | [] => false
    | _ :: t => listHasSub t needle

/-- Python `k == x` where `k` is a string: a Python string is `==` only to an
equal string, never to a value of another JSON type. -/
def pyStrEq (k : String) : JsonVal → Bool
  | .str s => k = s
  | _ => false

/-- Python `k in payload`.  `TypeError` (on numbers, booleans, `null`)
is `Except.error`. -/
def pyContains (p : JsonVal) (k : String) : Except Unit Bool :=
  match p with
  | .obj kvs => .ok (List.lookup k kvs).isSome
  | .arr xs => .ok (xs.any (pyStrEq k))
  | .str s => .ok (listHasSub s.toList k.toList)
  | _ => .error ()

/-- Python `payload[k]` with a string key: dict lookup; `TypeError`
(or `KeyError` on a missing dict key) is `Except.error`. -/
def pySubscript (p : JsonVal) (k : String) : Except Unit JsonVal :=
  match p with
  | .obj kvs =>
    match List.lookup k kvs with
    | some v => .ok v
    | none => .error ()
  | _ => .error ()

/-- The `_sensor_data` dict: five fixed keys, values are whatever JSON the
device last sent (no validation). -/
structure SensorData where
  moisture : JsonVal
  rawValue : JsonVal
  pumpStatus : JsonVal
  thresholdLow : JsonVal
  thresholdHigh : JsonVal

/-- The module-level `system_status` dict (returned by `get_data`; no handler
ever writes it). -/
structure TopStatus where
  autoMode : Bool
  manualOverride : Bool
  manualPumpStatus : Bool

/-- One element of `_history`: `{"timestamp": iso_str, "moisture": value}`. -/
structure HistoryEntry where
  timestamp : String
  moisture : JsonVal

/-- The whole module state of `app.py`.  `sysAutoMode` is
`_system_status["auto_mode"]` (always a `bool`, since `control` only ever
writes `bool(...)` into it). -/
structure Store where
  sensorData : SensorData
  topStatus : TopStatus
  sysAutoMode : Bool
  history : List HistoryEntry

/-- `_MAX_HISTORY = 500`. -/
def MAX_HISTORY : Nat := 500

/-- Initial module state: the dict literals at the top of `app.py`. -/
def initStore : Store :=
  { sensorData :=
      { moisture := .null
        rawValue := .null
        pumpStatus := .bool false
        thresholdLow := .num 30
        thresholdHigh := .num 60 }
    topStatus := { autoMode := true, manualOverride := false, manualPumpStatus := false }
    sysAutoMode := true
    history := [] }

/-- An HTTP response: status code and JSON body. -/
structure HttpResp where
  status : Nat
  body : JsonVal

/-- `jsonify({"error": "invalid json"}), 400`. -/
def resp400 : HttpResp := ⟨400, .obj [("error", .str "invalid json")]⟩

/-- `jsonify({"ok": True}), 200`. -/
def respOk : HttpResp := ⟨200, .obj [("ok", .bool true)]⟩

/-- Serialization of `_sensor_data` (insertion order of the dict literal). -/
def sensorToJson (sd : SensorData) : JsonVal :=
  .obj [("moisture", sd.moisture), ("raw_value", sd.rawValue),
        ("pump_status", sd.pumpStatus), ("threshold_low", sd.thresholdLow),
        ("threshold_high", sd.thresholdHigh)]

/-- Serialization of `_system_status`. -/
def sysToJson (b : Bool) : JsonVal := .obj [("auto_mode", .bool b)]

/-- `update sensor data fields that exist in payload` for one key `k`:
`if k in payload: _sensor_data[k] = payload[k]`. -/
def updateField (p : JsonVal) (k : String) (cur : JsonVal) : Except Unit JsonVal := do
  let c ← pyContains p k
  if c then pySubscript p k else .ok cur

/-- The `for k in (...)` loop of `ingest` over the five recognized keys. -/
def applyKeys (p : JsonVal) (sd : SensorData) : Except Unit SensorData := do
  let m ← updateField p "moisture" sd.moisture
  let r ← updateField p "raw_value" sd.rawValue
  let ps ← updateField p "pump_status" sd.pumpStatus
  let tl ← updateField p "threshold_low" sd.thresholdLow
  let th ← updateField p "threshold_high" sd.thresholdHigh
  pure ⟨m, r, ps, tl, th⟩

/-- The truncation step of `ingest`:
`if len(_history) > _MAX_HISTORY: del _history[0: len(_history) - _MAX_HISTORY]`. -/
def truncateHist (h : List HistoryEntry) : List HistoryEntry :=
  if h.length > MAX_HISTORY then h.drop (h.length - MAX_HISTORY) else h

/-- `POST /api/ingest`.  `body` is the parse result, `now` the UTC timestamp
string taken at append time.  `Except.error` is an uncaught `TypeError`
(only reachable on truthy non-mapping bodies, where no state was mutated
before the raise). -/
def ingest (body : Option JsonVal) (now : String) (s : Store) :
    Except Unit (HttpResp × Store) :=
  match body with
  | none => .ok (resp400, s)
  | some p =>
    if truthy p then do
      let sd ← applyKeys p s.sensorData
      let e : HistoryEntry := ⟨now, sd.moisture⟩
      let h := truncateHist (s.history ++ [e])
      pure (respOk, { s with sensorData := sd, history := h })
    else .ok (resp400, s)

/-- `POST /api/control`: `auto_mode` is applied first, then `manual_pump`,
which also forces `_system_status["auto_mode"] = False`. -/
def control (body : Option JsonVal) (s : Store) : Except Unit (HttpResp × Store) :=
  match body with
  | none => .ok (resp400, s)
  | some p =>
    if truthy p then do
      let hasAuto ← pyContains p "auto_mode"
      let s1 ←
        if hasAuto then do
          let v ← pySubscript p "auto_mode"
          pure { s with sysAutoMode := truthy v }
        else pure s
      let hasManual ← pyContains p "manual_pump"
      let s2 ←
        if hasManual then do
          let v ← pySubscript p "manual_pump"
          pure { s1 with
                   sensorData := { s1.sensorData with pumpStatus := .bool (truthy v) }
                   sysAutoMode := false }
        else pure s1
      pure (⟨200, .obj [("ok", .bool true), ("system_status", sysToJson s2.sysAutoMode),
                        ("sensor_data", sensorToJson s2.sensorData)]⟩, s2)
    else .ok (resp400, s)

/-- Response of `GET /api/data`. -/
structure DataResponse where
  sensorData : JsonVal
  systemStatus : TopStatus
  history : List JsonVal

/-- Python `l[-n:]`: the last `n` elements of `l` (all of them when
`l.length ≤ n`). -/
def takeLast {α : Type} (n : Nat) (l : List α) : List α :=
  l.drop (l.length - n)

/-- `GET /api/data`.  `extCurrent` models `arduino_reader.get_current_data()`
and `extHist` models `arduino_reader.get_history()`.
Modelled from the spec: the `arduino_reader` module is an external
collaborator outside `src/`; per the spec it exposes `GetCurrentData()` and
`GetHistory() -> ordered sequence of \x7btimestamp, moisture\x7d`, so both are
unconstrained parameters here. -/
def get_data (extCurrent : JsonVal) (extHist : List JsonVal) (s : Store) : DataResponse :=
  { sensorData := extCurrent
    systemStatus := s.topStatus
    history := takeLast 10 extHist }

/-- Is the parsed body a JSON mapping (a Python `dict`)? -/
def isMapping : JsonVal → Bool
  | .obj _ => true
  | _ => false

/-- The state after one `/api/ingest` call: the new store on success, the
unchanged store on a 400 or an uncaught exception (no state is mutated before
the raise, see `ingest`). -/
def ingestStep (p : JsonVal) (now : String) (s : Store) : Store :=
  match ingest (some p) now s with
  | .ok (_, s2) => s2
  | .error _ => s

/-- A sequence of `/api/ingest` calls (payload and timestamp for each),
oldest first. -/
def runIngest : List (JsonVal × String) → Store → Store
  | [], s => s
  | pn :: rest, s => runIngest rest (ingestStep pn.1 pn.2 s)

/-- Shadow of `ingestStep` with the truncation step removed: its history is
the unbounded log of every entry ever appended, in order.  Used only to state
FIFO eviction (the real history is always a suffix of this log). -/
def ingestStepU (p : JsonVal) (now : String) (s : Store) : Store :=
  if truthy p then
    match applyKeys p s.sensorData with
    | .ok sd => { s with sensorData := sd, history := s.history ++ [⟨now, sd.moisture⟩] }
    | .error _ => s
  else s

/-- The truncation-free shadow run (see `ingestStepU`). -/
def runIngestU : List (JsonVal × String) → Store → Store
  | [], s => s
  | pn :: rest, s => runIngestU rest (ingestStepU pn.1 pn.2 s)

/-- Proved characterization (`applyKeys_obj`) of the ingest field loop on a
mapping payload: a recognized key present in the payload overwrites the
field, an absent key keeps the old value. -/
def objUpdate (kvs : List (String × JsonVal)) (sd : SensorData) : SensorData :=
  { moisture := (List.lookup "moisture" kvs).getD sd.moisture
    rawValue := (List.lookup "raw_value" kvs).getD sd.rawValue
    pumpStatus := (List.lookup "pump_status" kvs).getD sd.pumpStatus
    thresholdLow := (List.lookup "threshold_low" kvs).getD sd.thresholdLow
    thresholdHigh := (List.lookup "threshold_high" kvs).getD sd.thresholdHigh }

/-- Proved characterization (`control_obj`) of the `control` state change on a
mapping payload: `auto_mode` applied first, `manual_pump` second, the latter
also forcing `sysAutoMode` to `false`. -/
def controlUpdate (kvs : List (String × JsonVal)) (s : Store) : Store :=
  let s1 :=
    match List.lookup "auto_mode" kvs with
    | some v => { s with sysAutoMode := truthy v }
    | none => s
  match List.lookup "manual_pump" kvs with
  | some v => { s1 with
                  sensorData := { s1.sensorData with pumpStatus := .bool (truthy v) }
                  sysAutoMode := false }
  | none => s1

/-! ### Helper lemmas -/

theorem updateField_obj (kvs : List (String × JsonVal)) (k : String) (cur : JsonVal) :
    updateField (.obj kvs) k cur = .ok ((List.lookup k kvs).getD cur) := by
  cases h : List.lookup k kvs <;>
    simp [updateField, pyContains, pySubscript, h, Bind.bind, Except.bind]

theorem applyKeys_obj (kvs : List (String × JsonVal)) (sd : SensorData) :
    applyKeys (.obj kvs) sd = .ok (objUpdate kvs sd) := by
  simp [applyKeys, updateField_obj, objUpdate, Bind.bind, Except.bind, Pure.pure, Except.pure]

theorem truthy_obj (kvs : List (String × JsonVal)) (h : kvs ≠ []) :
    truthy (.obj kvs) = true := by
  cases kvs with
  | nil => exact absurd rfl h
  | cons a l => rfl

theorem ingest_obj (kvs : List (String × JsonVal)) (now : String) (s : Store) (h : kvs ≠ []) :
    ingest (some (.obj kvs)) now s =
      .ok (respOk,
        { s with
            sensorData := objUpdate kvs s.sensorData
            history :=
              truncateHist (s.history ++ [⟨now, (objUpdate kvs s.sensorData).moisture⟩]) }) := by
  simp [ingest, truthy_obj kvs h, applyKeys_obj, Bind.bind, Except.bind, Pure.pure, Except.pure]

theorem control_obj (kvs : List (String × JsonVal)) (s : Store) (h : kvs ≠ []) :
    control (some (.obj kvs)) s =
      .ok (⟨200, .obj [("ok", .bool true),
                       ("system_status", sysToJson (controlUpdate kvs s).sysAutoMode),
                       ("sensor_data", sensorToJson (controlUpdate kvs s).sensorData)]⟩,
           controlUpdate kvs s) := by
  cases h1 : List.lookup "auto_mode" kvs <;> cases h2 : List.lookup "manual_pump" kvs <;>
    simp [control, truthy_obj kvs h, pyContains, pySubscript, h1, h2, controlUpdate,
          Bind.bind, Except.bind, Pure.pure, Except.pure]

theorem takeLast_eq_reverse {α : Type} (n : Nat) (l : List α) :
    takeLast n l = (l.reverse.take n).reverse :=
  List.rtake_eq_reverse_take_reverse l n

theorem length_takeLast {α : Type} (n : Nat) (l : List α) :
    (takeLast n l).length = min n l.length := by
  simp [takeLast]
  omega

theorem truncateHist_eq_takeLast (h : List HistoryEntry) :
    truncateHist h = takeLast MAX_HISTORY h := by
  unfold truncateHist takeLast
  split
  · rfl
  · have h0 : h.length - MAX_HISTORY = 0 := by omega
    rw [h0, List.drop_zero]

theorem takeLast_append_left {α : Type} (n : Nat) (xs ys : List α) :
    takeLast n (takeLast n xs ++ ys) = takeLast n (xs ++ ys) := by
  rw [takeLast_eq_reverse n (takeLast n xs ++ ys), takeLast_eq_reverse n (xs ++ ys),
      takeLast_eq_reverse n xs]
  rw [List.reverse_append, List.reverse_reverse, List.reverse_append]
  rw [List.take_append_eq_append_take, List.take_append_eq_append_take]
  rw [List.take_take]
  congr 3
  omega

theorem getLast?_takeLast {α : Type} (n : Nat) (hn : 0 < n) (l : List α) :
    (takeLast n l).getLast? = l.getLast? := by
  induction l using List.reverseRecOn with
  | nil => simp [takeLast]
  | append_singleton l e _ =>
    obtain ⟨m, rfl⟩ : ∃ m, n = m + 1 := ⟨n - 1, by omega⟩
    rw [takeLast_eq_reverse, List.reverse_append]
    simp [List.take_succ_cons, List.reverse_cons, List.getLast?_concat]

theorem ingestStep_sim (p : JsonVal) (now : String) (s u : Store)
    (hsd : s.sensorData = u.sensorData)
    (hh : s.history = takeLast MAX_HISTORY u.history) :
    (ingestStep p now s).sensorData = (ingestStepU p now u).sensorData ∧
    (ingestStep p now s).history = takeLast MAX_HISTORY (ingestStepU p now u).history := by
  cases htr : truthy p
  · simp [ingestStep, ingest, ingestStepU, htr, hsd, hh]
  · cases hak : applyKeys p u.sensorData with
    | error e =>
      rw [← hsd] at hak
      simp [ingestStep, ingest, ingestStepU, htr, hak, hsd ▸ hak, hsd, hh,
            Bind.bind, Except.bind]
    | ok sd =>
      rw [← hsd] at hak
      constructor
      · simp [ingestStep, ingest, ingestStepU, htr, hak, hsd ▸ hak,
              Bind.bind, Except.bind, Pure.pure, Except.pure]
      · simp only [ingestStep, ingest, ingestStepU, htr, hak, hsd ▸ hak, if_true,
              Bind.bind, Except.bind, Pure.pure, Except.pure]
        rw [truncateHist_eq_takeLast, hh, takeLast_append_left]

theorem runIngest_sim (ps : List (JsonVal × String)) (s u : Store)
    (hsd : s.sensorData = u.sensorData)
    (hh : s.history = takeLast MAX_HISTORY u.history) :
    (runIngest ps s).sensorData = (runIngestU ps u).sensorData ∧
    (runIngest ps s).history = takeLast MAX_HISTORY (runIngestU ps u).history := by
  induction ps generalizing s u with
  | nil => exact ⟨hsd, hh⟩
  | cons pn rest ih =>
    have hstep := ingestStep_sim pn.1 pn.2 s u hsd hh
    exact ih (ingestStep pn.1 pn.2 s) (ingestStepU pn.1 pn.2 u) hstep.1 hstep.2

/-! ### Claim theorems -/

/-- C1: for every sequence of `/api/ingest` calls starting from the initial
store (empty history), the Store's history length never exceeds
`MAX_HISTORY` (500); the history always equals the last 500 entries of the
truncation-free log of every entry ever appended (`runIngestU`), so on
overflow exactly the oldest entries are the ones removed (FIFO eviction),
and the newest appended entry is always retained (the bounded history and
the unbounded log have the same last element). -/
theorem ingest_history_bounded_fifo (ps : List (JsonVal × String)) :
    (runIngest ps initStore).history.length ≤ MAX_HISTORY ∧
    (runIngest ps initStore).history =
      takeLast MAX_HISTORY (runIngestU ps initStore).history ∧
    (runIngest ps initStore).history.getLast? =
      (runIngestU ps initStore).history.getLast? := by
  have hsim := runIngest_sim ps initStore initStore rfl (by simp [initStore, takeLast])
  refine ⟨?_, hsim.2, ?_⟩
  · rw [hsim.2, length_takeLast]
    exact min_le_left _ _
  · rw [hsim.2, getLast?_takeLast MAX_HISTORY (by decide)]

/-- C2: when a control payload mapping contains both `auto_mode` and
`manual_pump`, `auto_mode` is applied first and `manual_pump` second, so
the resulting `_system_status["auto_mode"]` is `false` regardless of the
`auto_mode` value `a`, and `pump_status` becomes the boolean coercion of
the `manual_pump` value `m`. -/
theorem control_manual_pump_precedence (kvs : List (String × JsonVal)) (s : Store)
    (a m : JsonVal)
    (ha : List.lookup "auto_mode" kvs = some a)
    (hm : List.lookup "manual_pump" kvs = some m) :
    ∃ r : HttpResp,
      control (some (.obj kvs)) s =
        .ok (r, { s with
                    sensorData := { s.sensorData with pumpStatus := .bool (truthy m) }
                    sysAutoMode := false }) ∧
      r.status = 200 := by
  have hne : kvs ≠ [] := by rintro rfl; simp at ha
  have hcu : controlUpdate kvs s =
      { s with
          sensorData := { s.sensorData with pumpStatus := .bool (truthy m) }
          sysAutoMode := false } := by
    simp [controlUpdate, ha, hm]
  rw [control_obj kvs s hne, hcu]
  exact ⟨_, rfl, rfl⟩

/-- Witness for C2 at the spec's concrete scenario:
`{"auto_mode": true, "manual_pump": false}` yields `auto_mode = false`
(manual-pump precedence) and `pump_status = false`. -/
theorem control_manual_pump_precedence_witness :
    ∃ r : HttpResp,
      control (some (.obj [("auto_mode", .bool true), ("manual_pump", .bool false)]))
          initStore =
        .ok (r, { initStore with
                    sensorData := { initStore.sensorData with pumpStatus := .bool false }
                    sysAutoMode := false }) ∧
      r.status = 200 :=
  control_manual_pump_precedence _ initStore (.bool true) (.bool false) rfl rfl

/-- C3: on a successful ingest with mapping payload `kvs`, each of the five
recognized sensor fields present in the payload is overwritten with the
payload's value and each absent field keeps its previous value
(`objUpdate` looks up exactly the five recognized keys, so bindings with
any other key never influence the snapshot). -/
theorem ingest_partial_update (kvs : List (String × JsonVal)) (now : String) (s : Store)
    (h : kvs ≠ []) :
    ingest (some (.obj kvs)) now s =
      .ok (respOk,
        { s with
            sensorData := objUpdate kvs s.sensorData
            history :=
              truncateHist (s.history ++ [⟨now, (objUpdate kvs s.sensorData).moisture⟩]) }) :=
  ingest_obj kvs now s h

/-- Witness for C3 at the spec's partial payload `{"moisture": 42}`: moisture
is overwritten, the four other fields keep their defaults. -/
theorem ingest_partial_update_witness :
    ingest (some (.obj [("moisture", .num 42)])) "t" initStore =
      .ok (respOk,
        { initStore with
            sensorData := { initStore.sensorData with moisture := .num 42 }
            history := [⟨"t", .num 42⟩] }) := by
  rw [ingest_partial_update [("moisture", .num 42)] "t" initStore (by simp)]
  rfl

/-- C5: a control call whose mapping payload contains `auto_mode` but not
`manual_pump` succeeds and leaves `pump_status` exactly as it was. -/
theorem control_auto_mode_preserves_pump (kvs : List (String × JsonVal)) (s : Store)
    (a : JsonVal)
    (ha : List.lookup "auto_mode" kvs = some a)
    (hm : List.lookup "manual_pump" kvs = none) :
    ∃ r s2, control (some (.obj kvs)) s = .ok (r, s2) ∧
      s2.sensorData.pumpStatus = s.sensorData.pumpStatus ∧
      r.status = 200 := by
  have hne : kvs ≠ [] := by rintro rfl; simp at ha
  have hcu : controlUpdate kvs s = { s with sysAutoMode := truthy a } := by
    simp [controlUpdate, ha, hm]
  rw [control_obj kvs s hne, hcu]
  exact ⟨_, _, rfl, rfl, rfl⟩

/-- Witness for C5 at the spec's concrete scenario `{"auto_mode": false}`. -/
theorem control_auto_mode_preserves_pump_witness :
    ∃ r s2, control (some (.obj [("auto_mode", .bool false)])) initStore = .ok (r, s2) ∧
      s2.sensorData.pumpStatus = initStore.sensorData.pumpStatus ∧
      r.status = 200 :=
  control_auto_mode_preserves_pump _ initStore (.bool false) rfl rfl

/-- C6 (code bug): a successful control call `{"auto_mode": false}` does set
`_system_status["auto_mode"]` to `false` in the Store, but a subsequent
`GET /api/data` reports `autoMode = true`: `get_data` serves the separate
module-level `system_status` dict, which no handler ever writes, instead of
the `_system_status` dict that `control` mutates. -/
theorem get_data_stale_system_status :
    ∃ s2 : Store,
      control (some (.obj [("auto_mode", .bool false)])) initStore =
        .ok (⟨200, .obj [("ok", .bool true), ("system_status", sysToJson false),
                         ("sensor_data", sensorToJson initStore.sensorData)]⟩, s2) ∧
      s2.sysAutoMode = false ∧
      (get_data .null [] s2).systemStatus.autoMode = true :=
  ⟨{ initStore with sysAutoMode := false }, rfl, rfl, rfl⟩

/-- C7: a successful ingest with mapping payload appends exactly one history
entry: the new history is the (truncated) old history plus one entry whose
moisture equals the snapshot's moisture after this call's partial update
(the payload's value when the key is present, the pre-existing value
otherwise) and whose timestamp is the clock string `now` captured at append
time; that entry is the last element of the new history. -/
theorem ingest_appends_single_entry (kvs : List (String × JsonVal)) (now : String)
    (s : Store) (h : kvs ≠ []) :
    ∃ s2, ingest (some (.obj kvs)) now s = .ok (respOk, s2) ∧
      s2.sensorData.moisture = (List.lookup "moisture" kvs).getD s.sensorData.moisture ∧
      s2.history = truncateHist (s.history ++ [⟨now, s2.sensorData.moisture⟩]) ∧
      s2.history.getLast? = some ⟨now, s2.sensorData.moisture⟩ := by
  refine ⟨_, ingest_obj kvs now s h, rfl, rfl, ?_⟩
  rw [truncateHist_eq_takeLast, getLast?_takeLast MAX_HISTORY (by decide),
      List.getLast?_concat]

/-- Witness for C7 at the payload `{"moisture": 7}` and timestamp `"ts"`. -/
theorem ingest_appends_single_entry_witness :
    ∃ s2, ingest (some (.obj [("moisture", .num 7)])) "ts" initStore = .ok (respOk, s2) ∧
      s2.sensorData.moisture =
        (List.lookup "moisture" [("moisture", JsonVal.num 7)]).getD
          initStore.sensorData.moisture ∧
      s2.history = truncateHist (initStore.history ++ [⟨"ts", s2.sensorData.moisture⟩]) ∧
      s2.history.getLast? = some ⟨"ts", s2.sensorData.moisture⟩ :=
  ingest_appends_single_entry [("moisture", .num 7)] "ts" initStore (by simp)

/-- C8: `GET /api/data` answers with the last 10 entries of the external
collaborator's history buffer (`arduino_reader.get_history()`, modelled as
the parameter `extHist`), in order with the most recent last — the returned
history is a suffix of the collaborator's buffer of length `min 10 len` —
and the response does not depend on the Store's own bounded history. -/
theorem get_data_history_from_external (extCur : JsonVal) (extHist : List JsonVal)
    (s : Store) (h1 h2 : List HistoryEntry) :
    (get_data extCur extHist s).history.length = min 10 extHist.length ∧
    List.IsSuffix (get_data extCur extHist s).history extHist ∧
    get_data extCur extHist { s with history := h1 } =
      get_data extCur extHist { s with history := h2 } := by
  refine ⟨length_takeLast 10 extHist, ?_, rfl⟩
  exact List.drop_suffix _ _

/-- C9: any request body parsing to a falsy JSON value — the empty mapping
included — is answered with HTTP 400 `{"error": "invalid json"}` by both
`/api/ingest` and `/api/control`, and the Store is left unchanged (the
guard is `if not payload`, i.e. Python truthiness, not a mapping check). -/
theorem falsy_body_rejected (v : JsonVal) (now : String) (s : Store)
    (h : truthy v = false) :
    ingest (some v) now s = .ok (resp400, s) ∧
    control (some v) s = .ok (resp400, s) := by
  constructor <;> simp [ingest, control, h]

/-- Witness for C9 at the empty mapping `{}`. -/
theorem falsy_body_rejected_witness :
    truthy (.obj []) = false ∧
    ingest (some (.obj [])) "t" initStore = .ok (resp400, initStore) ∧
    control (some (.obj [])) initStore = .ok (resp400, initStore) :=
  ⟨rfl, (falsy_body_rejected (.obj []) "t" initStore rfl).1,
    (falsy_body_rejected (.obj []) "t" initStore rfl).2⟩

/-- C10: a control call whose mapping payload is non-empty but contains
neither `auto_mode` nor `manual_pump` succeeds with `ok: true` (HTTP 200)
and leaves the Store — system status and sensor snapshot included —
entirely unchanged. -/
theorem control_no_keys_noop (kvs : List (String × JsonVal)) (s : Store)
    (h : kvs ≠ [])
    (ha : List.lookup "auto_mode" kvs = none)
    (hm : List.lookup "manual_pump" kvs = none) :
    control (some (.obj kvs)) s =
      .ok (⟨200, .obj [("ok", .bool true), ("system_status", sysToJson s.sysAutoMode),
                       ("sensor_data", sensorToJson s.sensorData)]⟩, s) := by
  have hcu : controlUpdate kvs s = s := by simp [controlUpdate, ha, hm]
  rw [control_obj kvs s h, hcu]

/-- Witness for C10 at the payload `{"foo": 1}`. -/
theorem control_no_keys_noop_witness :
    control (some (.obj [("foo", .num 1)])) initStore =
      .ok (⟨200, .obj [("ok", .bool true),
                       ("system_status", sysToJson initStore.sysAutoMode),
                       ("sensor_data", sensorToJson initStore.sensorData)]⟩, initStore) :=
  control_no_keys_noop [("foo", .num 1)] initStore (by simp) rfl rfl

theorem except_elim {X : Type} (e : Except Unit X) : e = .error () ∨ ∃ x, e = .ok x := by
  cases e with
  | error a => exact .inl (by cases a; rfl)
  | ok x => exact .inr ⟨x, rfl⟩

theorem ingest_truthy_no400 (p : JsonVal) (now : String) (s : Store)
    (h : truthy p = true) :
    ingest (some p) now s = .error () ∨
    ∃ s2, ingest (some p) now s = .ok (respOk, s2) := by
  rcases except_elim (applyKeys p s.sensorData) with hak | ⟨sd, hak⟩
  · exact .inl (by simp [ingest, h, hak, Bind.bind, Except.bind])
  · refine .inr ⟨{ s with
      sensorData := sd
      history := truncateHist (s.history ++ [⟨now, sd.moisture⟩]) }, ?_⟩
    simp [ingest, h, hak, Bind.bind, Except.bind, Pure.pure, Except.pure]

theorem control_nonobj_no400 (p : JsonVal) (s : Store) (h : truthy p = true)
    (hsub : ∀ k, pySubscript p k = .error ())
    (c1 c2 : Bool)
    (h1 : pyContains p "auto_mode" = .ok c1)
    (h2 : pyContains p "manual_pump" = .ok c2) :
    control (some p) s = .error () ∨
    ∃ r s2, control (some p) s = .ok (r, s2) ∧ r.status = 200 := by
  cases c1 with
  | true =>
    exact .inl (by simp [control, h, h1, h2, hsub, Bind.bind, Except.bind,
      Pure.pure, Except.pure])
  | false =>
    cases c2 with
    | true =>
      exact .inl (by simp [control, h, h1, h2, hsub, Bind.bind, Except.bind,
        Pure.pure, Except.pure])
    | false =>
      refine .inr ⟨⟨200, .obj [("ok", .bool true),
        ("system_status", sysToJson s.sysAutoMode),
        ("sensor_data", sensorToJson s.sensorData)]⟩, s, ?_, rfl⟩
      simp [control, h, h1, h2, Bind.bind, Except.bind, Pure.pure, Except.pure]

theorem control_truthy_no400 (p : JsonVal) (s : Store) (h : truthy p = true) :
    control (some p) s = .error () ∨
    ∃ r s2, control (some p) s = .ok (r, s2) ∧ r.status = 200 := by
  match p with
  | .null => simp [truthy] at h
  | .bool b => exact .inl (by simp [control, h, pyContains, Bind.bind, Except.bind])
  | .num n => exact .inl (by simp [control, h, pyContains, Bind.bind, Except.bind])
  | .str t => exact control_nonobj_no400 _ s h (fun k => rfl) _ _ rfl rfl
  | .arr xs => exact control_nonobj_no400 _ s h (fun k => rfl) _ _ rfl rfl
  | .obj kvs =>
    have hne : kvs ≠ [] := by
      cases kvs with
      | nil => simp [truthy] at h
      | cons a l => simp
    exact .inr ⟨_, _, control_obj kvs s hne, rfl⟩

/-- C4 counterexample: the empty mapping `{}` parses to a JSON mapping, yet
both handlers answer HTTP 400 `{"error": "invalid json"}` — refuting the
claim that every body parsing to a mapping is accepted and processed. -/
theorem empty_mapping_rejected :
    isMapping (.obj []) = true ∧
    ingest (some (.obj [])) "t" initStore = .ok (resp400, initStore) ∧
    control (some (.obj [])) initStore = .ok (resp400, initStore) ∧
    resp400.status = 400 :=
  ⟨rfl, rfl, rfl, rfl⟩

/-- C4 (amended): each handler answers HTTP 400 `{"error": "invalid json"}`
with the Store unchanged if and only if the body is missing, fails to
parse, or parses to a falsy JSON value (Python truthiness — the empty
mapping included); every body parsing to a non-empty mapping is accepted
and processed (`/api/ingest` with `{ok: true}`, `/api/control` with a 200);
truthy non-mapping bodies also pass the guard and never produce a 400
(they end in a 200 or in an uncaught `TypeError`). -/
theorem invalid_json_guard_amended (body : Option JsonVal) (now : String) (s : Store) :
    ((∃ r s2, ingest body now s = .ok (r, s2) ∧ r.status = 400) ↔
      (body = none ∨ ∃ v, body = some v ∧ truthy v = false)) ∧
    ((∃ r s2, control body s = .ok (r, s2) ∧ r.status = 400) ↔
      (body = none ∨ ∃ v, body = some v ∧ truthy v = false)) ∧
    (∀ r s2, ingest body now s = .ok (r, s2) → r.status = 400 → r = resp400 ∧ s2 = s) ∧
    (∀ r s2, control body s = .ok (r, s2) → r.status = 400 → r = resp400 ∧ s2 = s) ∧
    (∀ kvs, body = some (.obj kvs) → kvs ≠ [] →
      (∃ s2, ingest body now s = .ok (respOk, s2)) ∧
      (∃ r s2, control body s = .ok (r, s2) ∧ r.status = 200)) := by
  match body with
  | none =>
    refine ⟨?_, ?_, ?_, ?_, ?_⟩
    · exact ⟨fun _ => .inl rfl, fun _ => ⟨resp400, s, rfl, rfl⟩⟩
    · exact ⟨fun _ => .inl rfl, fun _ => ⟨resp400, s, rfl, rfl⟩⟩
    · intro r s2 hr _
      simp only [ingest, Except.ok.injEq, Prod.mk.injEq] at hr
      exact ⟨hr.1.symm, hr.2.symm⟩
    · intro r s2 hr _
      simp only [control, Except.ok.injEq, Prod.mk.injEq] at hr
      exact ⟨hr.1.symm, hr.2.symm⟩
    · intro kvs hk
      exact absurd hk (by simp)
  | some v =>
    cases htr : truthy v with
    | false =>
      have hi : ingest (some v) now s = .ok (resp400, s) := by simp [ingest, htr]
      have hc : control (some v) s = .ok (resp400, s) := by simp [control, htr]
      refine ⟨?_, ?_, ?_, ?_, ?_⟩
      · exact ⟨fun _ => .inr ⟨v, rfl, htr⟩, fun _ => ⟨resp400, s, hi, rfl⟩⟩
      · exact ⟨fun _ => .inr ⟨v, rfl, htr⟩, fun _ => ⟨resp400, s, hc, rfl⟩⟩
      · intro r s2 hr _
        rw [hi] at hr
        simp only [Except.ok.injEq, Prod.mk.injEq] at hr
        exact ⟨hr.1.symm, hr.2.symm⟩
      · intro r s2 hr _
        rw [hc] at hr
        simp only [Except.ok.injEq, Prod.mk.injEq] at hr
        exact ⟨hr.1.symm, hr.2.symm⟩
      · rintro kvs hk hne
        injection hk with hk'
        subst hk'
        cases kvs with
        | nil => exact absurd rfl hne
        | cons a l => simp [truthy] at htr
    | true =>
      have hrhs : ¬ (some v = none ∨ ∃ u, some v = some u ∧ truthy u = false) := by
        rintro (hnone | ⟨u, hu, hut⟩)
        · exact Option.noConfusion hnone
        · injection hu with hu'
          subst hu'
          rw [htr] at hut
          exact Bool.noConfusion hut
      have hing : ∀ r s2, ingest (some v) now s = .ok (r, s2) → r.status = 400 → False := by
        intro r s2 hok h4
        rcases ingest_truthy_no400 v now s htr with he | ⟨s2', he⟩
        · rw [he] at hok
          exact Except.noConfusion hok
        · rw [he] at hok
          simp only [Except.ok.injEq, Prod.mk.injEq] at hok
          rw [← hok.1] at h4
          simp [respOk] at h4
      have hctl : ∀ r s2, control (some v) s = .ok (r, s2) → r.status = 400 → False := by
        intro r s2 hok h4
        rcases control_truthy_no400 v s htr with he | ⟨r', s2', he, hst⟩
        · rw [he] at hok
          exact Except.noConfusion hok
        · rw [he] at hok
          simp only [Except.ok.injEq, Prod.mk.injEq] at hok
          rw [← hok.1] at h4
          rw [hst] at h4
          exact absurd h4 (by norm_num)
      refine ⟨?_, ?_, ?_, ?_, ?_⟩
      · constructor
        · rintro ⟨r, s2, hok, h4⟩
          exact absurd h4 (by intro h4x; exact hing r s2 hok h4x)
        · intro hr
          exact absurd hr hrhs
      · constructor
        · rintro ⟨r, s2, hok, h4⟩
          exact absurd h4 (by intro h4x; exact hctl r s2 hok h4x)
        · intro hr
          exact absurd hr hrhs
      · intro r s2 hok h4
        exact absurd h4 (by intro h4x; exact hing r s2 hok h4x)
      · intro r s2 hok h4
        exact absurd h4 (by intro h4x; exact hctl r s2 hok h4x)
      · rintro kvs hk hne
        injection hk with hk'
        subst hk'
        exact ⟨⟨_, ingest_obj kvs now s hne⟩, ⟨_, _, control_obj kvs s hne, rfl⟩⟩

/-- Witness for C4's amended guard: a missing/unparseable body gets a 400,
and the non-empty mapping `{"moisture": 1}` is accepted by both handlers. -/
theorem invalid_json_guard_amended_witness :
    (∃ r s2, ingest none "t" initStore = .ok (r, s2) ∧ r.status = 400) ∧
    (∃ s2, ingest (some (.obj [("moisture", .num 1)])) "t" initStore = .ok (respOk, s2)) ∧
    (∃ r s2, control (some (.obj [("moisture", .num 1)])) initStore = .ok (r, s2) ∧
      r.status = 200) := by
  refine ⟨?_, ?_, ?_⟩
  · exact (invalid_json_guard_amended none "t" initStore).1.mpr (.inl rfl)
  · exact ((invalid_json_guard_amended (some (.obj [("moisture", .num 1)])) "t"
      initStore).2.2.2.2 _ rfl (by simp)).1
  · exact ((invalid_json_guard_amended (some (.obj [("moisture", .num 1)])) "t"
      initStore).2.2.2.2 _ rfl (by simp)).2

end IrrigationApp
